import Mathlib

/-!
Shallow embedding of the middleware chain of zesty-io/alice (src/chain.go,
the revision before the separator; the later definitions marked as the second
revision come from the part after it).

A Go http.Handler serves a request by mutating the response writer; here a
handler is a state transformer on an abstract request/response context.  A Go
call may fail to return: a handler evaluates to none when its execution never
terminates, and the recursion created by the endware adapter inside Then is
modelled by a fuel parameter (Chain.thenAdapter).  A run that returns some
value at one fuel bound returns the same value at every larger bound; a run
that returns none at every fuel bound never terminates in Go.

The central modelling point is the function literal built inside Then
(chain.go lines 53 to 59).  Per the Go specification, a function literal
captures the surrounding variables themselves, shared between the literal and
the surrounding function.  The literal reads the variable h; Then immediately
rebinds h to the literal, and then, in the loop of lines 61 to 63, to each
constructor application in turn.  By the time a request reaches the adapter,
the variable h holds the fully composed handler that Then returned, not the
terminal handler that was passed in; the terminal handler value is never read
after the rebinding.  Chain.thenAdapter therefore re-invokes the whole
composed handler (with one unit of fuel spent per adapter entry), and
Chain.Then discards the substituted terminal handler after the nil check,
exactly as the source does.
-/

namespace Alice

/-- Handler models Go http.Handler: a state transformer on the request and
response context that may fail to terminate (none). -/
abbrev Handler (σ : Type) : Type := σ → Option σ

/-- Constructor for a piece of middleware (chain.go line 11):
func(http.Handler) http.Handler. -/
abbrev Constructor (σ : Type) : Type := Handler σ → Handler σ

/-- Endware (chain.go line 142): func(http.ResponseWriter, *http.Request),
invoked only for its effect on the request and response context. -/
abbrev Endware (σ : Type) : Type := σ → σ

/-- Chain holds the constructor list and the endware list
(chain.go lines 17 to 20). -/
structure Chain (σ : Type) where
  constructors : List (Constructor σ)
  endware : List (Endware σ)

variable {σ ω : Type}

/-- New (chain.go lines 26 to 28): a fresh chain holding a copy of the given
constructor list and no endware. -/
def New (constructors : List (Constructor σ)) : Chain σ :=
  ⟨constructors, []⟩

/-- The endware loop in the adapter body (chain.go lines 56 to 58):
each endware function runs in storage order on the same context. -/
def runEndware (endware : List (Endware σ)) (s : σ) : σ :=
  endware.foldl (fun s2 e => e s2) s

/-- The constructor loop of Then (chain.go lines 61 to 63): h is rebound to
the application of constructor number len-1-i for i = 0 .. len-1, so the
constructors are applied in reverse storage order. -/
def applyConstructors (constructors : List (Constructor σ)) (h : Handler σ) : Handler σ :=
  constructors.reverse.foldl (fun h2 ctor => ctor h2) h

/-- The endware adapter of Then (chain.go lines 53 to 59).  The function
literal reads the shared variable h as later rebound by the constructor loop,
so at request time it invokes the fully composed handler, then runs the
endware on the result.  One unit of fuel is spent per adapter entry; fuel
zero stands for a run that never returns. -/
def Chain.thenAdapter (c : Chain σ) : Nat → Handler σ
  | 0 => fun _ => none
  | fuel + 1 => fun s =>
    match applyConstructors c.constructors (c.thenAdapter fuel) s with
    | none => none
    | some s1 => some (runEndware c.endware s1)

/-- Then (chain.go lines 48 to 66).  The nil check substitutes the default
serve mux for a nil terminal handler, but the substituted value is dead code:
the next statement rebinds the variable h to the adapter literal, whose body
reads the rebound variable, so neither the terminal handler nor the default
mux is ever invoked by the returned handler. -/
def Chain.Then (c : Chain σ) (defaultServeMux : Handler σ) (h : Option (Handler σ))
    (fuel : Nat) : Handler σ :=
  let _hSubstituted : Handler σ := h.getD defaultServeMux
  applyConstructors c.constructors (c.thenAdapter fuel)

/-- ThenFunc (chain.go lines 76 to 81): a nil function falls back to
Then nil; otherwise the function is passed to Then as a handler. -/
def Chain.ThenFunc (c : Chain σ) (defaultServeMux : Handler σ) (fn : Option (Handler σ))
    (fuel : Nat) : Handler σ :=
  match fn with
  | none => c.Then defaultServeMux none fuel
  | some f => c.Then defaultServeMux (some f) fuel

/-- Append (chain.go lines 93 to 99): fresh storage holding the receiver
constructors followed by the new ones; endware carried over unchanged. -/
def Chain.Append (c : Chain σ) (constructors : List (Constructor σ)) : Chain σ :=
  ⟨c.constructors ++ constructors, c.endware⟩

/-- AppendEndware (chain.go lines 161 to 167): fresh storage holding the
receiver endware followed by the new ones; constructors carried over
unchanged. -/
def Chain.AppendEndware (c : Chain σ) (endwares : List (Endware σ)) : Chain σ :=
  ⟨c.constructors, c.endware ++ endwares⟩

/-- After (chain.go lines 147 to 149, the revision before the separator):
Chain{c.constructors, c.endware}.AppendEndware(endwares...), i.e. the new
endware is appended to the endware the receiver already holds. -/
def Chain.After (c : Chain σ) (endwares : List (Endware σ)) : Chain σ :=
  (Chain.mk c.constructors c.endware).AppendEndware endwares

/-- After as in the second revision after the separator (chain.go lines
309 to 311): Chain{c.constructors, endwareFns}, i.e. the endware list is
replaced by the argument. -/
def Chain.AfterReplace (c : Chain σ) (endwareFns : List (Endware σ)) : Chain σ :=
  ⟨c.constructors, endwareFns⟩

/-- Extend (chain.go lines 125 to 130): Append the other chain constructors,
then AppendEndware its endware. -/
def Chain.Extend (c : Chain σ) (chain : Chain σ) : Chain σ :=
  (c.Append chain.constructors).AppendEndware chain.endware

/-- A Go function value may carry an ambient side effect that fires when the
function is called; the pure Constructor type above cannot show when a
constructor is called.  This variant threads an explicit world through each
constructor call so that call events at composition time are observable. -/
abbrev EffConstructor (σ ω : Type) : Type := Handler σ → ω → Handler σ × ω

/-- The constructor loop of Then (chain.go lines 61 to 63) with the ambient
effect of each constructor call threaded through.  These iterations are the
only function calls the body of Then performs: the nil check and the creation
of the adapter literal call nothing, and the endware list is only captured by
the literal, never called during Then.  Returns the composed handler together
with the world after the loop. -/
def thenBuildLoop (constructors : List (EffConstructor σ ω)) (h : Handler σ) (w : ω) :
    Handler σ × ω :=
  constructors.reverse.foldl (fun p ctor => ctor p.1 p.2) (h, w)

/-- Wraps a pure constructor as an effectful one that also counts the calls
made to it. -/
def countingConstructor (g : Constructor σ) : EffConstructor σ Nat :=
  fun h n => (g h, n + 1)

/-- A terminating handler on the Nat context: used as a stub terminal
handler. -/
def stubHandler : Handler Nat := fun s => some s

/-- The identity middleware constructor on the Nat context. -/
def idCtor : Constructor Nat := fun h => h

/-- Default serve mux stand-in on the Nat context: records the dispatch by
adding 100. -/
def dmuxNat : Handler Nat := fun s => some (s + 100)

/-- Terminating terminal handler on the Nat context: records its run by
adding 1. -/
def termNat : Handler Nat := fun s => some (s + 1)

/-- Default serve mux stand-in on the trace context: logs 100. -/
def dmuxList : Handler (List Nat) := fun s => some (s ++ [100])

/-- Terminal handler on the trace context: logs 99 when it runs. -/
def termList : Handler (List Nat) := fun s => some (s ++ [99])

/-- A well-behaved middleware on the trace context: logs 0 and always calls
the handler it wraps. -/
def logCtor : Constructor (List Nat) := fun next s => next (s ++ [0])

/-- A one-shot middleware on the trace context: on a fresh trace it logs 0 and
calls the wrapped handler; on any later entry it logs 1 and returns without
invoking the wrapped handler (a short circuit, like a rate limiter that
admits a single pass). -/
def blockCtor : Constructor (List Nat) := fun next s =>
  match s with
  | [] => next (s ++ [0])
  | _ :: _ => some (s ++ [1])

/-- Endware on the trace context: logs 2 when it runs. -/
def endMark : Endware (List Nat) := fun s => s ++ [2]

/-- Concrete endware values on the Nat context. -/
def e1 : Endware Nat := fun s => s + 1

/-- Concrete endware value, adds 2. -/
def e2 : Endware Nat := fun s => s + 2

/-- Concrete endware value, adds 3. -/
def e3 : Endware Nat := fun s => s + 3

/-- Helper: with no constructors the adapter never returns, at any fuel:
its body invokes the composed handler, which is the adapter itself. -/
theorem thenAdapter_nil (E : List (Endware σ)) :
    ∀ (fuel : Nat) (s : σ), (Chain.mk ([] : List (Constructor σ)) E).thenAdapter fuel s = none := by
  intro fuel
  induction fuel with
  | zero => intro s; rfl
  | succ f ih =>
    intro s
    simp [Chain.thenAdapter, applyConstructors, ih]

/-- Helper: with the single pass-through middleware logCtor the adapter never
returns at any fuel: the middleware always hands the request back to the
composed handler, which re-enters the adapter. -/
theorem thenAdapter_logCtor (E : List (Endware (List Nat))) :
    ∀ (fuel : Nat) (s : List Nat), (Chain.mk [logCtor] E).thenAdapter fuel s = none := by
  intro fuel
  induction fuel with
  | zero => intro s; rfl
  | succ f ih =>
    intro s
    simp [Chain.thenAdapter, applyConstructors, logCtor, ih]

/-- Helper: the instrumented constructor loop over counting constructors
composes exactly as the pure loop and performs exactly one call per list
element. -/
theorem foldl_counting (l : List (Constructor σ)) :
    ∀ (h : Handler σ) (w : Nat),
      (l.map countingConstructor).foldl (fun p ctor => ctor p.1 p.2) (h, w) =
        (l.foldl (fun h2 g => g h2) h, w + l.length) := by
  induction l with
  | nil => intro h w; simp
  | cons g l ih =>
    intro h w
    simp only [List.map_cons, List.foldl_cons, countingConstructor, List.length_cons]
    rw [ih]
    congr 1
    omega

/-- Claim C1: the composed handler is claimed to run the constructors in
order, then the terminal handler, then the endware.  On the code this fails:
with one pass-through middleware, one endware and a terminating terminal
handler, the run returns none at every fuel bound, i.e. the request never
completes and neither the terminal handler (which would log 99) nor the
endware (which would log 2) ever runs, because the adapter re-invokes the
composed handler instead of the terminal handler. -/
theorem then_run_diverges :
    ∀ (fuel : Nat) (s : List Nat),
      (((New [logCtor]).AppendEndware [endMark]).Then dmuxList (some termList) fuel) s = none := by
  intro fuel s
  simp [New, Chain.AppendEndware, Chain.Then, applyConstructors, logCtor,
    thenAdapter_logCtor]

/-- Claim C2 counterexample: After appends to the endware the receiver
already holds, so New().After(e1, e2).After(e3) carries endware
[e1, e2, e3] and not [e3] as the claim states. -/
theorem after_after_counterexample :
    (((New ([] : List (Constructor Nat))).After [e1, e2]).After [e3]).endware = [e1, e2, e3]
      ∧ ([e1, e2, e3] : List (Endware Nat)) ≠ [e3] := by
  refine ⟨rfl, fun h => ?_⟩
  simpa using congrArg List.length h

/-- Claim C2 amended: After keeps the receiver constructors and appends the
given endware to the endware the receiver already holds, so chained After
calls accumulate endware exactly as AppendEndware does. -/
theorem after_appends (c : Chain σ) (es fs : List (Endware σ)) :
    (c.After es).After fs = Chain.mk c.constructors (c.endware ++ es ++ fs)
      ∧ (c.After es).After fs = (c.After es).AppendEndware fs := by
  constructor
  · simp [Chain.After, Chain.AppendEndware, List.append_assoc]
  · rfl

/-- Claim C3: the claim states that on an empty chain the handler returned by
Then invokes the terminal handler exactly once and terminates.  On the code
this fails: the adapter reads the variable h as rebound to the adapter
itself, so the run returns none at every fuel bound (the terminal handler,
which would add 1, never runs). -/
theorem then_empty_diverges :
    ∀ (fuel : Nat) (s : Nat),
      ((New ([] : List (Constructor Nat))).Then dmuxNat (some termNat) fuel) s = none := by
  intro fuel s
  simp [New, Chain.Then, applyConstructors, thenAdapter_nil]

/-- Claim C4: then(nil) and thenFunc(nil) are claimed to dispatch to the
default serve mux.  The nil substitution does happen and nothing faults, but
the composed handler never dispatches to the mux (which would add 100): the
run returns none at every fuel bound for both entry points. -/
theorem then_nil_diverges :
    (∀ (fuel : Nat) (s : Nat),
        ((New ([] : List (Constructor Nat))).Then dmuxNat none fuel) s = none)
      ∧ (∀ (fuel : Nat) (s : Nat),
        ((New ([] : List (Constructor Nat))).ThenFunc dmuxNat none fuel) s = none) := by
  constructor <;>
    · intro fuel s
      simp [New, Chain.Then, Chain.ThenFunc, applyConstructors, thenAdapter_nil]

/-- Claim C5: a short circuit is claimed to prevent the terminal handler and
all endware from running for that request.  Concrete run on the code: the
one-shot middleware blockCtor admits the first entry (logs 0) and short
circuits the re-entry coming from the adapter (logs 1, does not invoke its
wrapped handler); the adapter then receives that short-circuit result and
runs the endware (logs 2).  So the endware executes in a request during
which a constructor declined to invoke its wrapped handler, refuting the
claim on the code. -/
theorem short_circuit_endware_runs :
    (((New [blockCtor]).AppendEndware [endMark]).Then dmuxList none 2) [] = some [0, 1, 2] := by
  rfl

/-- Claim C6: ThenFunc equals Then on every input: a nil function falls back
to Then nil, and a non-nil function is passed through to Then unchanged. -/
theorem thenFunc_eq_then (c : Chain σ) (defaultServeMux : Handler σ)
    (fn : Option (Handler σ)) (fuel : Nat) :
    c.ThenFunc defaultServeMux fn fuel = c.Then defaultServeMux fn fuel := by
  cases fn <;> rfl

/-- Claim C7: Extend concatenates: the result holds the receiver constructors
followed by the other chain constructors, and the receiver endware followed
by the other chain endware. -/
theorem extend_concatenates (a b : Chain σ) :
    a.Extend b = Chain.mk (a.constructors ++ b.constructors) (a.endware ++ b.endware) := rfl

/-- Claim C8: appending constructors one at a time equals appending them
together, both in the constructor sequence and in the endware sequence. -/
theorem append_pairwise (c : Chain σ) (x y : Constructor σ) :
    (c.Append [x]).Append [y] = c.Append [x, y] := by
  simp [Chain.Append, List.append_assoc]

/-- Claim C9: frame conditions: Append leaves the endware unchanged and
AppendEndware leaves the constructors unchanged, while each appends to its
own sequence; the receiver is a value and is untouched by either call. -/
theorem append_frame (c : Chain σ) (xs : List (Constructor σ)) (es : List (Endware σ)) :
    (c.Append xs).endware = c.endware
      ∧ (c.AppendEndware es).constructors = c.constructors
      ∧ (c.Append xs).constructors = c.constructors ++ xs
      ∧ (c.AppendEndware es).endware = c.endware ++ es :=
  ⟨rfl, rfl, rfl, rfl⟩

/-- Claim C10 counterexample: Then does invoke constructors during the call
itself: one counting constructor fires exactly once during the build loop,
so the world after the loop is 1, not 0 as the claim (no constructor invoked
during then) requires. -/
theorem then_build_invokes_a_constructor :
    (thenBuildLoop [countingConstructor idCtor] stubHandler 0).2 = 1 ∧ (1 : Nat) ≠ 0 :=
  ⟨rfl, by decide⟩

/-- Claim C10 amended: during the call to then each constructor is invoked
exactly once, by the constructor loop, and the loop composes exactly as the
pure embedding; no endware function and no constructor-built handler is
called during then (the build loop neither receives nor touches the endware
list, which is only captured by the adapter and runs per request). -/
theorem then_build_invokes_each_constructor_once (gs : List (Constructor σ))
    (h : Handler σ) (w : Nat) :
    thenBuildLoop (gs.map countingConstructor) h w = (applyConstructors gs h, w + gs.length) := by
  simp only [thenBuildLoop, applyConstructors, ← List.map_reverse]
  rw [foldl_counting gs.reverse h w]
  simp

end Alice
